import Mathlib

/-!
Shallow embedding of the C bridge in `capi/clipper_bridge.h` /
`capi/clipper_bridge.cc` (the boundary layer between a foreign caller and the
Clipper2 polygon-geometry engine), together with theorems about the bridge.

Modelling conventions:
* Wire structs (`cpt64`, `cpath64`, `cpaths64`) are Lean structures.  A C
  pointer that may be null is an `Option`: `none` is the null pointer, and
  `some buf` is a pointer to a buffer whose contents are the list `buf`.
* A read through a null pointer or past the end of a buffer is undefined
  behaviour in C; functions that perform raw indexed reads return
  `Except MemErr`, and an `.error` result marks exactly those executions.
* `int` / `int64_t` fields carry no arithmetic in the bridge (they are only
  compared and used as loop bounds), so they are modelled as `Int`.
* The Clipper2 engine itself (`Clipper64::Execute`, `BooleanOp`,
  `InflatePaths`, `RectClip`) is an external component (vendored third-party
  code, out of scope per the design); dispatchers are parameterised by
  engine functions returning `Except Unit` (an engine may raise a C++
  exception, modelled as `.error ()`).
* Heap allocation through `operator new[](…, std::nothrow)` is modelled by an
  allocation oracle `alloc : Nat → Bool` saying whether the n-th allocation
  request of a call succeeds.
-/

/-- Wire point: `typedef struct { int64_t x, y; } cpt64;`. -/
structure cpt64 where
  x : Int
  y : Int
deriving DecidableEq, Repr

/-- Wire path: `typedef struct { int len; cpt64* pts; } cpath64;`.
`pts = none` models a null point-buffer pointer. -/
structure cpath64 where
  len : Int
  pts : Option (List cpt64)
deriving DecidableEq, Repr

/-- Wire path set: `typedef struct { int len; cpath64* items; } cpaths64;`.
`items = none` models a null path-array pointer. -/
structure cpaths64 where
  len : Int
  items : Option (List cpath64)
deriving DecidableEq, Repr

/-- Internal engine path type `Clipper2Lib::Path64` (a vector of points). -/
abbrev Path64 := List cpt64

/-- Internal engine paths type `Clipper2Lib::Paths64`. -/
abbrev Paths64 := List Path64

/-- Memory fault classes for raw buffer reads: dereferencing a null buffer
pointer, or indexing past the end of a buffer.  Both are undefined behaviour
in the C source. -/
inductive MemErr where
  | nullDeref
  | outOfBounds
deriving DecidableEq, Repr

/-- Read element `i` of a C array modelled by `buf` (`buf[i]`). -/
def readArr (buf : Option (List α)) (i : Nat) : Except MemErr α :=
  match buf with
  | none => .error .nullDeref
  | some l =>
    match l[i]? with
    | some a => .ok a
    | none => .error .outOfBounds

/-- Read `n` consecutive elements of `buf` starting at index `j`
(the loop `for (k = j; k < j + n; ++k) … buf[k]`). -/
def readRange (buf : Option (List α)) : Nat → Nat → Except MemErr (List α)
  | 0, _ => .ok []
  | n + 1, j =>
    match readArr buf j with
    | .error e => .error e
    | .ok a =>
      match readRange buf n (j + 1) with
      | .error e => .error e
      | .ok rest => .ok (a :: rest)

/-- Conversion of one wire path, the per-path body of `toPaths64`
(clipper_bridge.cc lines 25–33): if `cpath.len > 0 && cpath.pts`, copy
`cpath.len` points from the buffer, else produce the empty path. -/
def toPath64 (cpath : cpath64) : Except MemErr Path64 :=
  if 0 < cpath.len ∧ cpath.pts.isSome then
    readRange cpath.pts cpath.len.toNat 0
  else
    .ok []

/-- Loop of `toPaths64` over `items[j] … items[j+n-1]`. -/
def toPathsAux (items : Option (List cpath64)) : Nat → Nat → Except MemErr Paths64
  | 0, _ => .ok []
  | n + 1, j =>
    match readArr items j with
    | .error e => .error e
    | .ok it =>
      match toPath64 it with
      | .error e => .error e
      | .ok p =>
        match toPathsAux items n (j + 1) with
        | .error e => .error e
        | .ok rest => .ok (p :: rest)

/-- Import converter `toPaths64` (clipper_bridge.cc lines 20–36): a null set
pointer or a non-positive set length yields the empty internal collection;
otherwise each of the `len` wire paths is converted in order. -/
def toPaths64 (cp : Option cpaths64) : Except MemErr Paths64 :=
  match cp with
  | none => .ok []
  | some s =>
    if s.len ≤ 0 then .ok []
    else toPathsAux s.items s.len.toNat 0

/-- Points denoted by one wire path: the first `len` buffer entries when
`len` is positive, else no points.  The length field is authoritative. -/
def pathContent (p : cpath64) : Path64 :=
  if 0 < p.len then (p.pts.getD []).take p.len.toNat else []

/-- Points denoted by a wire path set: the point lists of its first `len`
paths when `len` is positive, else no paths. -/
def wireContent (cp : Option cpaths64) : Paths64 :=
  match cp with
  | none => []
  | some s =>
    if s.len ≤ 0 then []
    else ((s.items.getD []).take s.len.toNat).map pathContent

/-- Validity of a wire path set as stated in the data-model invariants: a
set of positive length has a path array of exactly that many entries, and
every path of positive length has a point buffer of exactly that many
points. -/
def ValidWire (cp : Option cpaths64) : Prop :=
  ∀ s, cp = some s → 0 < s.len →
    ∃ l, s.items = some l ∧ l.length = s.len.toNat ∧
      ∀ it ∈ l, 0 < it.len → ∃ b, it.pts = some b ∧ b.length = it.len.toNat

/-- Readability of a wire path set: the path array is non-null and long
enough whenever the set length is positive, and every positive-length path
has a null point buffer or one of at least that many points.  On this domain
every raw read performed by `toPaths64` is in bounds. -/
def ReadableWire (cp : Option cpaths64) : Prop :=
  ∀ s, cp = some s → 0 < s.len →
    ∃ l, s.items = some l ∧ s.len.toNat ≤ l.length ∧
      ∀ it ∈ l.take s.len.toNat, 0 < it.len →
        ∀ b, it.pts = some b → it.len.toNat ≤ b.length


-- ---------------------------------------------------------------------------
-- Export converter and deep free
-- ---------------------------------------------------------------------------

/-- Shape of one exported wire path on full success: an empty internal path
is exported as length 0 with a null buffer (clipper_bridge.cc lines 55–57),
a non-empty one as its length plus a freshly allocated buffer holding its
points (lines 48–54). -/
def expItem (p : Path64) : cpath64 :=
  if p.length = 0 then { len := 0, pts := none }
  else { len := (p.length : Int), pts := some p }

/-- Per-path loop of `fromPaths64` (clipper_bridge.cc lines 44–58), threading
the allocation-oracle counter `c`: an empty path writes `len 0, pts null`;
a non-empty path requests a point-buffer allocation, aborting with `false`
when it fails. -/
def exportItems (alloc : Nat → Bool) : Nat → List Path64 → Bool × List cpath64
  | _, [] => (true, [])
  | c, p :: rest =>
    if p.length = 0 then
      let r := exportItems alloc c rest
      (r.1, { len := 0, pts := none } :: r.2)
    else if alloc c then
      let r := exportItems alloc (c + 1) rest
      (r.1, { len := (p.length : Int), pts := some p } :: r.2)
    else (false, [{ len := (p.length : Int), pts := none }])

/-- Export converter `fromPaths64` (clipper_bridge.cc lines 38–60).
`dstNull` models a null destination pointer (line 39).  Allocation 0 is the
path-array allocation (line 41, checked at line 42 only when `len` is
non-zero); subsequent allocations are point buffers.  The first component is
the C return value; the second is the fully written destination on success
(`none` when the destination was null or the export aborted, in which case
the destination must not be treated as valid). -/
def fromPaths64 (alloc : Nat → Bool) (src : Paths64) (dstNull : Bool) :
    Bool × Option cpaths64 :=
  if dstNull then (false, none)
  else if src.length ≠ 0 ∧ ¬ alloc 0 then (false, none)
  else
    let r := exportItems alloc 1 src
    if r.1 then
      (true, some { len := (src.length : Int),
                    items := if alloc 0 then some r.2 else none })
    else (false, none)

/-- Deallocation events performed by the deep free: releasing one point
buffer (`operator delete[](p->items[i].pts)`) or the path array
(`operator delete[](p->items)`). -/
inductive FreeAction where
  | freePts (buf : List cpt64)
  | freeItems (items : List cpath64)
deriving DecidableEq, Repr

/-- Loop of `clipper2c_free_paths` (clipper_bridge.cc lines 66–68): for each
`i < len`, free `items[i].pts` when it is non-null. -/
def freePtsLoop (items : Option (List cpath64)) : Nat → Nat → Except MemErr (List FreeAction)
  | 0, _ => .ok []
  | n + 1, j =>
    match readArr items j with
    | .error e => .error e
    | .ok it =>
      match freePtsLoop items n (j + 1) with
      | .error e => .error e
      | .ok rest =>
        .ok ((match it.pts with
              | some b => [FreeAction.freePts b]
              | none => []) ++ rest)

/-- Deep free `clipper2c_free_paths` (clipper_bridge.cc lines 64–72): a null
handle or a null path array returns immediately; otherwise every non-null
point buffer is freed, then the path array, then the handle is reset to
`len = 0, items = null`.  Returns the value behind the handle after the call
together with the deallocations performed. -/
def clipper2c_free_paths (p : Option cpaths64) :
    Except MemErr (Option cpaths64 × List FreeAction) :=
  match p with
  | none => .ok (none, [])
  | some s =>
    match s.items with
    | none => .ok (some s, [])
    | some its =>
      match freePtsLoop s.items s.len.toNat 0 with
      | .error e => .error e
      | .ok acts =>
        .ok (some { len := 0, items := none }, acts ++ [FreeAction.freeItems its])

-- ---------------------------------------------------------------------------
-- Enum types and converters
-- ---------------------------------------------------------------------------

/-- Internal engine clip type `Clipper2Lib::ClipType`. -/
inductive ClipType where
  | Intersection | Union | Difference | Xor
deriving DecidableEq, Repr

/-- Internal engine fill rule `Clipper2Lib::FillRule`. -/
inductive FillRule where
  | EvenOdd | NonZero | Positive | Negative
deriving DecidableEq, Repr

/-- Internal engine join type `Clipper2Lib::JoinType`; `Bevel` exists here
but has no selector in the public `c_jointype` enum. -/
inductive JoinType where
  | Square | Bevel | Round | Miter
deriving DecidableEq, Repr

/-- Internal engine end type `Clipper2Lib::EndType`; `Polygon` exists here
but has no selector in the public `c_endtype` enum. -/
inductive EndType where
  | Polygon | Joined | Butt | Square | Round
deriving DecidableEq, Repr

/-- Public enum `c_jointype` (clipper_bridge.h lines 39–43), which declares
exactly the three selectors `C_JOIN_SQUARE = 0`, `C_JOIN_ROUND = 1`,
`C_JOIN_MITER = 2`. -/
inductive c_jointype where
  | square | round | miter
deriving DecidableEq, Repr

/-- Integer value of a `c_jointype` selector as declared in the header. -/
def c_jointype.val : c_jointype → Int
  | .square => 0
  | .round => 1
  | .miter => 2

/-- Public clip-type values (clipper_bridge.h lines 25–30). -/
def C_CLIP_INTERSECTION : Int := 0
def C_CLIP_UNION : Int := 1
def C_CLIP_DIFFERENCE : Int := 2
def C_CLIP_XOR : Int := 3

/-- Public fill-rule values (clipper_bridge.h lines 32–37). -/
def C_FILL_EVENODD : Int := 0
def C_FILL_NONZERO : Int := 1
def C_FILL_POSITIVE : Int := 2
def C_FILL_NEGATIVE : Int := 3

/-- Public join-type values (clipper_bridge.h lines 39–43). -/
def C_JOIN_SQUARE : Int := 0
def C_JOIN_ROUND : Int := 1
def C_JOIN_MITER : Int := 2

/-- Public end-type values (clipper_bridge.h lines 45–50). -/
def C_END_BUTT : Int := 0
def C_END_SQUARE : Int := 1
def C_END_ROUND : Int := 2
def C_END_JOINED : Int := 3

/-- Converter `toCT` (clipper_bridge.cc lines 84–92); the C enum argument is
carried as its integer value, since any `int` can cross the ABI. -/
def toCT (ct : Int) : ClipType :=
  if ct = C_CLIP_UNION then .Union
  else if ct = C_CLIP_DIFFERENCE then .Difference
  else if ct = C_CLIP_XOR then .Xor
  else .Intersection

/-- Converter `toFR` (clipper_bridge.cc lines 74–82). -/
def toFR (fr : Int) : FillRule :=
  if fr = C_FILL_NONZERO then .NonZero
  else if fr = C_FILL_POSITIVE then .Positive
  else if fr = C_FILL_NEGATIVE then .Negative
  else .EvenOdd

/-- Converter `toJT` (clipper_bridge.cc lines 94–102).  The source switch
has a `case C_JOIN_BEVEL` arm, but `C_JOIN_BEVEL` is not declared in
clipper_bridge.h; its value is taken as a parameter `bevelVal`, which any
compiling completion of the header must make distinct from the three
declared values (duplicate switch case labels do not compile). -/
def toJT (bevelVal : Int) (jt : Int) : JoinType :=
  if jt = C_JOIN_SQUARE then .Square
  else if jt = bevelVal then .Bevel
  else if jt = C_JOIN_ROUND then .Round
  else if jt = C_JOIN_MITER then .Miter
  else .Square

/-- Converter `toET` (clipper_bridge.cc lines 104–113).  The source switch
has a `case C_END_POLYGON` arm, but `C_END_POLYGON` is not declared in
clipper_bridge.h; its value is taken as a parameter `polyVal`, analogous to
`bevelVal` in `toJT`. -/
def toET (polyVal : Int) (et : Int) : EndType :=
  if et = polyVal then .Polygon
  else if et = C_END_JOINED then .Joined
  else if et = C_END_BUTT then .Butt
  else if et = C_END_SQUARE then .Square
  else if et = C_END_ROUND then .Round
  else .Polygon

-- ---------------------------------------------------------------------------
-- Abstract engine interface and the three dispatchers
-- ---------------------------------------------------------------------------

/-- Axis-aligned rectangle `Clipper2Lib::Rect64`, constructed at
clipper_bridge.cc line 176 as `Rect64 r{left, top, right, bottom}`. -/
structure Rect64 where
  left : Int
  top : Int
  right : Int
  bottom : Int
deriving DecidableEq, Repr

/-- Abstract behaviour of `Clipper64::Execute` on an engine instance whose
registered closed subjects, open subjects and clip paths are the three
`Paths64` arguments (a set that was never registered is the empty list).
`.error ()` models a C++ exception raised during evaluation. -/
abbrev ExecuteFn :=
  ClipType → FillRule → Paths64 → Paths64 → Paths64 → Except Unit (Paths64 × Paths64)

/-- Abstract behaviour of the free function `Clipper2Lib::BooleanOp`. -/
abbrev BooleanOpFn := ClipType → FillRule → Paths64 → Paths64 → Except Unit Paths64

/-- Abstract behaviour of `Clipper2Lib::InflatePaths`. -/
abbrev InflateFn :=
  Paths64 → Float → JoinType → EndType → Float → Float → Except Unit Paths64

/-- Abstract behaviour of `Clipper2Lib::RectClip`. -/
abbrev RectClipFn := Rect64 → Paths64 → Except Unit Paths64

/-- Observable interactions of `clipper2c_boolean64` with the geometry
engine: registration of a path set under one of the three roles, one
combined `Execute` evaluation, or one reduced `BooleanOp` evaluation. -/
inductive EngineEvent where
  | addSubject (ps : Paths64)
  | addOpenSubject (ps : Paths64)
  | addClip (ps : Paths64)
  | execute (ct : ClipType) (fr : FillRule)
  | booleanOp (ct : ClipType) (fr : FillRule) (subj clip : Paths64)
deriving DecidableEq, Repr

/-- Strategy selection of `clipper2c_boolean64` (clipper_bridge.cc lines
126–147) over already-imported path collections, returning the internal
closed and open solutions together with the trace of engine interactions.
`e` is the abstract `Clipper64` engine, `b` the abstract `BooleanOp`. -/
def booleanStrategy (e : ExecuteFn) (b : BooleanOpFn) (ct fr : Int)
    (subj subjOp clip : Paths64) :
    Except Unit (Paths64 × Paths64 × List EngineEvent) :=
  if subjOp ≠ [] ∨ (subj ≠ [] ∧ clip ≠ []) then
    match e (toCT ct) (toFR fr) subj subjOp clip with
    | .error u => .error u
    | .ok (sol, solOpen) =>
      .ok (sol, solOpen,
        (if subj ≠ [] then [EngineEvent.addSubject subj] else []) ++
        (if subjOp ≠ [] then [EngineEvent.addOpenSubject subjOp] else []) ++
        (if clip ≠ [] then [EngineEvent.addClip clip] else []) ++
        [EngineEvent.execute (toCT ct) (toFR fr)])
  else if subj ≠ [] ∧ clip = [] then
    match b (toCT ct) (toFR fr) subj clip with
    | .error u => .error u
    | .ok sol =>
      .ok (sol, [], [EngineEvent.booleanOp (toCT ct) (toFR fr) subj clip])
  else .ok ([], [], [])

/-- Body of the `try` block of `clipper2c_boolean64` up to line 147: import
the three wire sets (lines 122–124), then select and run the evaluation
strategy. -/
def boolean64core (e : ExecuteFn) (b : BooleanOpFn) (ct fr : Int)
    (subjects subjects_open clips : Option cpaths64) :
    Except MemErr (Except Unit (Paths64 × Paths64 × List EngineEvent)) :=
  match toPaths64 subjects with
  | .error m => .error m
  | .ok subj =>
    match toPaths64 subjects_open with
    | .error m => .error m
    | .ok subjOp =>
      match toPaths64 clips with
      | .error m => .error m
      | .ok clip => .ok (booleanStrategy e b ct fr subj subjOp clip)

/-- Output marshaling of `clipper2c_boolean64` (clipper_bridge.cc lines
149–151): export the closed solution when `out_closed` is non-null (status 2
on failure), then the open solution when `out_open` is non-null (status 3 on
failure), else status 0.  Returns the status and the values written behind
the two output pointers (`none`: pointer null, slot aborted, or slot not
reached). -/
def exportBooleanOutputs (aC aO : Nat → Bool) (sol solOpen : Paths64)
    (outClosedNull outOpenNull : Bool) : Int × Option cpaths64 × Option cpaths64 :=
  if outClosedNull then
    if outOpenNull then (0, none, none)
    else
      match fromPaths64 aO solOpen false with
      | (true, v) => (0, none, v)
      | (false, _) => (3, none, none)
  else
    match fromPaths64 aC sol false with
    | (false, _) => (2, none, none)
    | (true, vC) =>
      if outOpenNull then (0, vC, none)
      else
        match fromPaths64 aO solOpen false with
        | (true, vO) => (0, vC, vO)
        | (false, _) => (3, vC, none)

/-- Public operation `clipper2c_boolean64` (clipper_bridge.cc lines
115–155): run the core under the catch-all boundary (any engine exception
becomes status 1), then marshal the requested outputs.  The two allocation
oracles govern the closed-slot and open-slot exports. -/
def clipper2c_boolean64 (e : ExecuteFn) (b : BooleanOpFn) (aC aO : Nat → Bool)
    (ct fr : Int) (subjects subjects_open clips : Option cpaths64)
    (outClosedNull outOpenNull : Bool) :
    Except MemErr (Int × Option cpaths64 × Option cpaths64) :=
  match boolean64core e b ct fr subjects subjects_open clips with
  | .error m => .error m
  | .ok (.error _) => .ok (1, none, none)
  | .ok (.ok (sol, solOpen, _)) =>
    .ok (exportBooleanOutputs aC aO sol solOpen outClosedNull outOpenNull)

/-- Public operation `clipper2c_offset64` (clipper_bridge.cc lines 157–169):
import, inflate through the engine (status 1 on an engine exception), then
export (status 2 on failure, including a null output pointer). -/
def clipper2c_offset64 (i : InflateFn) (a : Nat → Bool) (bevelVal polyVal : Int)
    (paths : Option cpaths64) (delta : Float) (jt et : Int)
    (miter_limit arc_tolerance : Float) (outNull : Bool) :
    Except MemErr (Int × Option cpaths64) :=
  match toPaths64 paths with
  | .error m => .error m
  | .ok inp =>
    match i inp delta (toJT bevelVal jt) (toET polyVal et) miter_limit arc_tolerance with
    | .error _ => .ok (1, none)
    | .ok out =>
      match fromPaths64 a out outNull with
      | (true, v) => .ok (0, v)
      | (false, _) => .ok (2, none)

/-- Public operation `clipper2c_rectclip64` (clipper_bridge.cc lines
171–183): import, clip against `Rect64 {left, top, right, bottom}` exactly
as given (status 1 on an engine exception), then export (status 2 on
failure, including a null output pointer). -/
def clipper2c_rectclip64 (r : RectClipFn) (a : Nat → Bool)
    (left top right bottom : Int) (in_paths : Option cpaths64) (outNull : Bool) :
    Except MemErr (Int × Option cpaths64) :=
  match toPaths64 in_paths with
  | .error m => .error m
  | .ok inp =>
    match r { left := left, top := top, right := right, bottom := bottom } inp with
    | .error _ => .ok (1, none)
    | .ok out =>
      match fromPaths64 a out outNull with
      | (true, v) => .ok (0, v)
      | (false, _) => .ok (2, none)

-- ---------------------------------------------------------------------------
-- Lemmas about the raw read loops
-- ---------------------------------------------------------------------------

theorem readArr_append (pre : List α) (a : α) (post : List α) :
    readArr (some (pre ++ a :: post)) pre.length = .ok a := by
  have h : (pre ++ a :: post)[pre.length]? = some a := by
    rw [List.getElem?_append_right (le_refl pre.length)]
    simp
  simp [readArr, h]

theorem readRange_append (b : List α) :
    ∀ pre rest : List α,
      readRange (some (pre ++ (b ++ rest))) b.length pre.length = .ok b := by
  induction b with
  | nil => intro pre rest; rfl
  | cons a tl ih =>
    intro pre rest
    have harr : readArr (some (pre ++ (a :: (tl ++ rest)))) pre.length = .ok a :=
      readArr_append pre a (tl ++ rest)
    have hrec :
        readRange (some (pre ++ (a :: (tl ++ rest)))) tl.length (pre.length + 1) =
          .ok tl := by
      have hx : pre ++ (a :: (tl ++ rest)) = (pre ++ [a]) ++ (tl ++ rest) := by
        simp
      have hy : (pre ++ [a]).length = pre.length + 1 := by simp
      rw [hx, ← hy]
      exact ih (pre ++ [a]) rest
    simp [readRange, harr, hrec]

theorem readRange_take (b : List α) (n : Nat) (h : n ≤ b.length) :
    readRange (some b) n 0 = .ok (b.take n) := by
  have hsplit : b = [] ++ (b.take n ++ b.drop n) := by simp
  have hlen : (b.take n).length = n := by simp [h]
  calc readRange (some b) n 0
      = readRange (some ([] ++ (b.take n ++ b.drop n))) (b.take n).length
          ([] : List α).length := by rw [← hsplit, hlen]; rfl
    _ = .ok (b.take n) := readRange_append (b.take n) [] (b.drop n)

theorem toPath64_ok (it : cpath64)
    (h : 0 < it.len → ∀ b, it.pts = some b → it.len.toNat ≤ b.length) :
    toPath64 it = .ok (pathContent it) := by
  by_cases hlen : 0 < it.len
  · cases hpts : it.pts with
    | none => simp [toPath64, pathContent, hpts, hlen]
    | some b =>
      have hb := h hlen b hpts
      simp only [toPath64, pathContent, hpts, hlen, Option.isSome_some,
        and_true, if_pos, true_and, Option.getD_some]
      exact readRange_take b it.len.toNat hb
  · simp [toPath64, pathContent, hlen]

theorem toPathsAux_append (its : List cpath64)
    (h : ∀ it ∈ its, toPath64 it = .ok (pathContent it)) :
    ∀ pre rest : List cpath64,
      toPathsAux (some (pre ++ (its ++ rest))) its.length pre.length =
        .ok (its.map pathContent) := by
  induction its with
  | nil => intro pre rest; rfl
  | cons a tl ih =>
    intro pre rest
    have harr : readArr (some (pre ++ (a :: (tl ++ rest)))) pre.length = .ok a :=
      readArr_append pre a (tl ++ rest)
    have hpa : toPath64 a = .ok (pathContent a) := h a (by simp)
    have hrec :
        toPathsAux (some (pre ++ (a :: (tl ++ rest)))) tl.length (pre.length + 1) =
          .ok (tl.map pathContent) := by
      have hx : pre ++ (a :: (tl ++ rest)) = (pre ++ [a]) ++ (tl ++ rest) := by
        simp
      have hy : (pre ++ [a]).length = pre.length + 1 := by simp
      rw [hx, ← hy]
      exact ih (fun it hit => h it (by simp [hit])) (pre ++ [a]) rest
    simp [toPathsAux, harr, hpa, hrec]

theorem toPaths64_readable (cp : Option cpaths64) (h : ReadableWire cp) :
    toPaths64 cp = .ok (wireContent cp) := by
  cases cp with
  | none => rfl
  | some s =>
    by_cases hlen : s.len ≤ 0
    · simp [toPaths64, wireContent, hlen]
    · have hpos : 0 < s.len := lt_of_not_ge hlen
      obtain ⟨l, hitems, hle, hall⟩ := h s rfl hpos
      have hconv : ∀ it ∈ l.take s.len.toNat, toPath64 it = .ok (pathContent it) :=
        fun it hit => toPath64_ok it (hall it hit)
      have hsplit : l = [] ++ (l.take s.len.toNat ++ l.drop s.len.toNat) := by simp
      have hlen2 : (l.take s.len.toNat).length = s.len.toNat := by simp [hle]
      have := toPathsAux_append (l.take s.len.toNat) hconv [] (l.drop s.len.toNat)
      rw [← hsplit, hlen2] at this
      simp only [toPaths64, wireContent, hlen, if_neg, hitems, Option.getD_some]
      simpa using this

theorem validWire_readable (cp : Option cpaths64) (h : ValidWire cp) :
    ReadableWire cp := by
  intro s hs hpos
  obtain ⟨l, hitems, hlen, hall⟩ := h s hs hpos
  refine ⟨l, hitems, le_of_eq hlen.symm, ?_⟩
  intro it hit hplen b hb
  obtain ⟨b2, hb2, hblen⟩ := hall it (List.mem_of_mem_take hit) hplen
  rw [hb] at hb2
  cases hb2
  exact le_of_eq hblen.symm

-- ---------------------------------------------------------------------------
-- Lemmas about the export converter and the deep free
-- ---------------------------------------------------------------------------

theorem pathContent_expItem (p : Path64) : pathContent (expItem p) = p := by
  by_cases h : p.length = 0
  · have : p = [] := List.length_eq_zero.mp h
    simp [expItem, pathContent, h, this]
  · have hpos : (0 : Int) < (p.length : Int) := by
      exact_mod_cast Nat.pos_of_ne_zero h
    simp [expItem, pathContent, h, hpos]

theorem exportItems_ok (alloc : Nat → Bool) (src : Paths64) :
    ∀ c : Nat, (exportItems alloc c src).1 = true →
      (exportItems alloc c src).2 = src.map expItem := by
  induction src with
  | nil => intro c _; rfl
  | cons p tl ih =>
    intro c hok
    by_cases hlen : p.length = 0
    · have := ih c
      simp only [exportItems, hlen, if_pos] at hok ⊢
      simp only [List.map_cons, expItem, hlen, if_pos]
      exact congrArg _ (this hok)
    · by_cases halloc : alloc c
      · have := ih (c + 1)
        simp only [exportItems, hlen, if_neg, if_pos, halloc, ite_true,
          ite_false] at hok ⊢
        simp only [List.map_cons, expItem, hlen, if_neg, ite_false]
        exact congrArg _ (this hok)
      · simp [exportItems, hlen, halloc] at hok

theorem exportItems_perfect (src : Paths64) :
    ∀ c : Nat, exportItems (fun _ => true) c src = (true, src.map expItem) := by
  induction src with
  | nil => intro c; rfl
  | cons p tl ih =>
    intro c
    by_cases hlen : p.length = 0
    · simp [exportItems, hlen, ih c, expItem, List.map_cons]
    · simp [exportItems, hlen, ih (c + 1), expItem, List.map_cons]

theorem fromPaths64_perfect (src : Paths64) :
    fromPaths64 (fun _ => true) src false =
      (true, some { len := (src.length : Int), items := some (src.map expItem) }) := by
  simp [fromPaths64, exportItems_perfect src 1]

theorem fromPaths64_ok_shape (alloc : Nat → Bool) (src : Paths64)
    (out : cpaths64) (h : fromPaths64 alloc src false = (true, some out)) :
    out = { len := (src.length : Int),
            items := if alloc 0 then some (src.map expItem) else none } ∧
      (alloc 0 = false → src = []) := by
  by_cases hguard : src.length ≠ 0 ∧ ¬ alloc 0
  · simp [fromPaths64, hguard] at h
  · rcases hexp : exportItems alloc 1 src with ⟨ok, its⟩
    cases ok with
    | false => simp [fromPaths64, hguard, hexp] at h
    | true =>
      have hits : its = src.map expItem := by
        have h2 := exportItems_ok alloc src 1
        rw [hexp] at h2
        exact h2 rfl
      have hval : fromPaths64 alloc src false =
          (true, some { len := (src.length : Int),
                        items := if alloc 0 then some (src.map expItem) else none }) := by
        rw [← hits]
        simp [fromPaths64, hguard, hexp]
        intro hne
        by_contra hfail
        exact hguard ⟨fun hz => hne (List.length_eq_zero.mp hz), hfail⟩
      rw [hval] at h
      injection h with h1 h2
      injection h2 with h3
      refine ⟨h3.symm, ?_⟩
      intro hfail
      by_contra hne
      have hnz : src.length ≠ 0 := fun hz => hne (List.length_eq_zero.mp hz)
      exact hguard ⟨hnz, by simp [hfail]⟩

theorem wireContent_export (src : Paths64) :
    wireContent (some { len := (src.length : Int), items := some (src.map expItem) }) =
      src := by
  by_cases h : src.length = 0
  · have : src = [] := List.length_eq_zero.mp h
    simp [wireContent, this]
  · have hpos : ¬ ((src.length : Int) ≤ 0) := by
      simp only [not_le]
      exact_mod_cast Nat.pos_of_ne_zero h
    simp only [wireContent, hpos, if_neg, Option.getD_some, Int.toNat_natCast,
      ite_false]
    rw [List.take_of_length_le (by simp)]
    rw [List.map_map]
    have : pathContent ∘ expItem = id := funext pathContent_expItem
    simp [this]

theorem filterMap_pts_expItem (src : Paths64) :
    (src.map expItem).filterMap cpath64.pts = src.filter (fun p => p.length != 0) := by
  induction src with
  | nil => rfl
  | cons p tl ih =>
    by_cases h : p.length = 0
    · have hp : p = [] := List.length_eq_zero.mp h
      simp [expItem, h, hp, List.filterMap_cons, List.filter_cons, ih]
    · simp [expItem, h, List.filterMap_cons, List.filter_cons, ih]

theorem freePtsLoop_append (its : List cpath64) :
    ∀ pre rest : List cpath64,
      freePtsLoop (some (pre ++ (its ++ rest))) its.length pre.length =
        .ok ((its.filterMap cpath64.pts).map FreeAction.freePts) := by
  induction its with
  | nil => intro pre rest; rfl
  | cons a tl ih =>
    intro pre rest
    have harr : readArr (some (pre ++ (a :: (tl ++ rest)))) pre.length = .ok a :=
      readArr_append pre a (tl ++ rest)
    have hrec :
        freePtsLoop (some (pre ++ (a :: (tl ++ rest)))) tl.length (pre.length + 1) =
          .ok ((tl.filterMap cpath64.pts).map FreeAction.freePts) := by
      have hx : pre ++ (a :: (tl ++ rest)) = (pre ++ [a]) ++ (tl ++ rest) := by
        simp
      have hy : (pre ++ [a]).length = pre.length + 1 := by simp
      rw [hx, ← hy]
      exact ih (pre ++ [a]) rest
    cases hpts : a.pts with
    | none => simp [freePtsLoop, harr, hrec, List.filterMap_cons, hpts]
    | some bf => simp [freePtsLoop, harr, hrec, List.filterMap_cons, hpts]

theorem freePtsLoop_take (its : List cpath64) (n : Nat) (h : n ≤ its.length) :
    freePtsLoop (some its) n 0 =
      .ok (((its.take n).filterMap cpath64.pts).map FreeAction.freePts) := by
  have hsplit : its = [] ++ (its.take n ++ its.drop n) := by simp
  have hlen : (its.take n).length = n := by simp [h]
  calc freePtsLoop (some its) n 0
      = freePtsLoop (some ([] ++ (its.take n ++ its.drop n))) (its.take n).length
          ([] : List cpath64).length := by rw [← hsplit, hlen]; rfl
    _ = .ok (((its.take n).filterMap cpath64.pts).map FreeAction.freePts) :=
        freePtsLoop_append (its.take n) [] (its.drop n)

-- ---------------------------------------------------------------------------
-- Lemmas about the dispatchers
-- ---------------------------------------------------------------------------

theorem fromPaths64_true_some (alloc : Nat → Bool) (src : Paths64)
    (v : Option cpaths64) (h : fromPaths64 alloc src false = (true, v)) :
    ∃ w, v = some w := by
  cases hv : v with
  | some w => exact ⟨w, rfl⟩
  | none =>
    rw [hv] at h
    by_cases hguard : src.length ≠ 0 ∧ ¬ alloc 0
    · simp [fromPaths64, hguard] at h
    · rcases hexp : exportItems alloc 1 src with ⟨ok, its⟩
      cases ok with
      | false => simp [fromPaths64, hguard, hexp] at h
      | true =>
        simp [fromPaths64, hguard, hexp] at h
        split at h <;> simp at h

theorem exportBooleanOutputs_status (aC aO : Nat → Bool) (sol solOpen : Paths64)
    (nC nO : Bool) :
    (exportBooleanOutputs aC aO sol solOpen nC nO).1 = 0 ∨
      (exportBooleanOutputs aC aO sol solOpen nC nO).1 = 2 ∨
      (exportBooleanOutputs aC aO sol solOpen nC nO).1 = 3 := by
  cases nC with
  | true =>
    cases nO with
    | true => simp [exportBooleanOutputs]
    | false =>
      rcases h1 : fromPaths64 aO solOpen false with ⟨b1, v1⟩
      cases b1 <;> simp [exportBooleanOutputs, h1]
  | false =>
    rcases h1 : fromPaths64 aC sol false with ⟨b1, v1⟩
    cases b1 with
    | false => simp [exportBooleanOutputs, h1]
    | true =>
      cases nO with
      | true => simp [exportBooleanOutputs, h1]
      | false =>
        rcases h2 : fromPaths64 aO solOpen false with ⟨b2, v2⟩
        cases b2 <;> simp [exportBooleanOutputs, h1, h2]

-- ---------------------------------------------------------------------------
-- Claim theorems
-- ---------------------------------------------------------------------------

/-- C1: `clipper2c_boolean64` selects its evaluation strategy exactly as
specified.  With the three imported path collections `subj`, `subjOp`,
`clip`: (1) if the open subjects are non-empty, or both closed subjects and
clip are non-empty, the bridge registers each non-empty set (in the order
closed subjects, open subjects, clips) and runs one combined `Execute`
yielding both a closed and an open solution; (2) else if the closed
subjects are non-empty and the clip set is empty, it runs the reduced
`BooleanOp` of the requested clip type and fill rule over the closed
subjects against an empty clip set, yielding only a closed solution with an
empty open solution; (3) else (closed subjects empty) it makes no engine
call and both solutions are empty. -/
theorem c1_strategy_selection (e : ExecuteFn) (b : BooleanOpFn) (ct fr : Int)
    (subjects subjects_open clips : Option cpaths64) (subj subjOp clip : Paths64)
    (hs : toPaths64 subjects = .ok subj)
    (hso : toPaths64 subjects_open = .ok subjOp)
    (hc : toPaths64 clips = .ok clip) :
    (∀ sol solOpen, subjOp ≠ [] ∨ (subj ≠ [] ∧ clip ≠ []) →
      e (toCT ct) (toFR fr) subj subjOp clip = .ok (sol, solOpen) →
      boolean64core e b ct fr subjects subjects_open clips =
        .ok (.ok (sol, solOpen,
          (if subj ≠ [] then [EngineEvent.addSubject subj] else []) ++
          (if subjOp ≠ [] then [EngineEvent.addOpenSubject subjOp] else []) ++
          (if clip ≠ [] then [EngineEvent.addClip clip] else []) ++
          [EngineEvent.execute (toCT ct) (toFR fr)]))) ∧
    (∀ sol, subjOp = [] → subj ≠ [] → clip = [] →
      b (toCT ct) (toFR fr) subj [] = .ok sol →
      boolean64core e b ct fr subjects subjects_open clips =
        .ok (.ok (sol, [],
          [EngineEvent.booleanOp (toCT ct) (toFR fr) subj []]))) ∧
    (subjOp = [] → subj = [] →
      boolean64core e b ct fr subjects subjects_open clips = .ok (.ok ([], [], []))) := by
  have hcore : boolean64core e b ct fr subjects subjects_open clips =
      .ok (booleanStrategy e b ct fr subj subjOp clip) := by
    simp [boolean64core, hs, hso, hc]
  refine ⟨?_, ?_, ?_⟩
  · intro sol solOpen hcond heng
    rw [hcore]
    unfold booleanStrategy
    rw [if_pos hcond, heng]
  · intro sol hso2 hsubj hclip heng
    subst hso2
    subst hclip
    rw [hcore]
    unfold booleanStrategy
    have hcond : ¬ (([] : Paths64) ≠ [] ∨ (subj ≠ [] ∧ ([] : Paths64) ≠ [])) := by
      simp
    rw [if_neg hcond, if_pos ⟨hsubj, rfl⟩, heng]
  · intro hso2 hsubj
    subst hso2
    subst hsubj
    rw [hcore]
    unfold booleanStrategy
    simp

/-- Witness for C1: a single closed subject square-free point, no open
subjects and no clips goes through the reduced `BooleanOp` branch. -/
theorem c1_strategy_selection_witness :
    boolean64core (fun _ _ q qo _ => .ok (q, qo)) (fun _ _ q _ => .ok q) 0 0
        (some { len := 1, items := some [{ len := 1, pts := some [{ x := 0, y := 0 }] }] })
        none none =
      .ok (.ok ([[{ x := 0, y := 0 }]], [],
        [EngineEvent.booleanOp ClipType.Intersection FillRule.EvenOdd
          [[{ x := 0, y := 0 }]] []])) :=
  (c1_strategy_selection (fun _ _ q qo _ => .ok (q, qo)) (fun _ _ q _ => .ok q) 0 0
      (some { len := 1, items := some [{ len := 1, pts := some [{ x := 0, y := 0 }] }] })
      none none [[{ x := 0, y := 0 }]] [] [] rfl rfl rfl).2.1
    [[{ x := 0, y := 0 }]] rfl (by decide) rfl rfl

/-- C2: every completed run of each public operation returns one of its
documented status codes — `{0, 1, 2, 3}` for `clipper2c_boolean64` (3 only
for the open-solution slot) and `{0, 1, 2}` for `clipper2c_offset64` and
`clipper2c_rectclip64` — for arbitrary engine behaviour, including an engine
that raises an exception on every call, and for arbitrary allocator
behaviour: every internal failure is converted to a status code at the
dispatcher boundary, never propagated.  (A non-`ok` run is a caller-side
precondition violation — a raw read through an invalid wire buffer — which
the design classifies as undefined behaviour, not as a reportable error.) -/
theorem c2_status_codes :
    (∀ (e : ExecuteFn) (b : BooleanOpFn) (aC aO : Nat → Bool) (ct fr : Int)
        (s so c : Option cpaths64) (nC nO : Bool) (st : Int)
        (o1 o2 : Option cpaths64),
      clipper2c_boolean64 e b aC aO ct fr s so c nC nO = .ok (st, o1, o2) →
      st ∈ ([0, 1, 2, 3] : List Int)) ∧
    (∀ (i : InflateFn) (a : Nat → Bool) (bv pv : Int) (p : Option cpaths64)
        (d : Float) (jt et : Int) (ml atol : Float) (nO : Bool) (st : Int)
        (o : Option cpaths64),
      clipper2c_offset64 i a bv pv p d jt et ml atol nO = .ok (st, o) →
      st ∈ ([0, 1, 2] : List Int)) ∧
    (∀ (r : RectClipFn) (a : Nat → Bool) (l t rt bt : Int) (p : Option cpaths64)
        (nO : Bool) (st : Int) (o : Option cpaths64),
      clipper2c_rectclip64 r a l t rt bt p nO = .ok (st, o) →
      st ∈ ([0, 1, 2] : List Int)) := by
  refine ⟨?_, ?_, ?_⟩
  · intro e b aC aO ct fr s so c nC nO st o1 o2 h
    cases hcore : boolean64core e b ct fr s so c with
    | error m => simp [clipper2c_boolean64, hcore] at h
    | ok res =>
      cases res with
      | error u =>
        have hval : clipper2c_boolean64 e b aC aO ct fr s so c nC nO =
            .ok (1, none, none) := by
          simp [clipper2c_boolean64, hcore]
        rw [hval] at h
        injection h with h2
        have hst : (1 : Int) = st := congrArg Prod.fst h2
        rw [← hst]
        decide
      | ok trip =>
        obtain ⟨sol, solOpen, tr⟩ := trip
        have hval : clipper2c_boolean64 e b aC aO ct fr s so c nC nO =
            .ok (exportBooleanOutputs aC aO sol solOpen nC nO) := by
          simp [clipper2c_boolean64, hcore]
        rw [hval] at h
        injection h with h2
        have hst : (exportBooleanOutputs aC aO sol solOpen nC nO).1 = st := congrArg Prod.fst h2
        rw [← hst]
        rcases exportBooleanOutputs_status aC aO sol solOpen nC nO with h0 | h0 | h0 <;>
          rw [h0] <;> decide
  · intro i a bv pv p d jt et ml atol nO st o h
    cases himp : toPaths64 p with
    | error m => simp [clipper2c_offset64, himp] at h
    | ok inp =>
      cases heng : i inp d (toJT bv jt) (toET pv et) ml atol with
      | error u =>
        have hval : clipper2c_offset64 i a bv pv p d jt et ml atol nO = .ok (1, none) := by
          simp [clipper2c_offset64, himp, heng]
        rw [hval] at h
        injection h with h2
        have hst : (1 : Int) = st := congrArg Prod.fst h2
        rw [← hst]
        decide
      | ok out =>
        rcases hexp : fromPaths64 a out nO with ⟨bb, v⟩
        cases bb with
        | true =>
          have hval : clipper2c_offset64 i a bv pv p d jt et ml atol nO = .ok (0, v) := by
            simp [clipper2c_offset64, himp, heng, hexp]
          rw [hval] at h
          injection h with h2
          have hst : (0 : Int) = st := congrArg Prod.fst h2
          rw [← hst]
          decide
        | false =>
          have hval : clipper2c_offset64 i a bv pv p d jt et ml atol nO = .ok (2, none) := by
            simp [clipper2c_offset64, himp, heng, hexp]
          rw [hval] at h
          injection h with h2
          have hst : (2 : Int) = st := congrArg Prod.fst h2
          rw [← hst]
          decide
  · intro r a l t rt bt p nO st o h
    cases himp : toPaths64 p with
    | error m => simp [clipper2c_rectclip64, himp] at h
    | ok inp =>
      cases heng : r { left := l, top := t, right := rt, bottom := bt } inp with
      | error u =>
        have hval : clipper2c_rectclip64 r a l t rt bt p nO = .ok (1, none) := by
          simp [clipper2c_rectclip64, himp, heng]
        rw [hval] at h
        injection h with h2
        have hst : (1 : Int) = st := congrArg Prod.fst h2
        rw [← hst]
        decide
      | ok out =>
        rcases hexp : fromPaths64 a out nO with ⟨bb, v⟩
        cases bb with
        | true =>
          have hval : clipper2c_rectclip64 r a l t rt bt p nO = .ok (0, v) := by
            simp [clipper2c_rectclip64, himp, heng, hexp]
          rw [hval] at h
          injection h with h2
          have hst : (0 : Int) = st := congrArg Prod.fst h2
          rw [← hst]
          decide
        | false =>
          have hval : clipper2c_rectclip64 r a l t rt bt p nO = .ok (2, none) := by
            simp [clipper2c_rectclip64, himp, heng, hexp]
          rw [hval] at h
          injection h with h2
          have hst : (2 : Int) = st := congrArg Prod.fst h2
          rw [← hst]
          decide

/-- Witness for C2: a boolean run with empty inputs yields status 0; an
offset run with a throwing engine yields status 1 (the exception is caught
and converted); a rect-clip run with a null output pointer yields status 2.
All three statuses are in the documented sets. -/
theorem c2_status_codes_witness :
    ((0 : Int) ∈ ([0, 1, 2, 3] : List Int)) ∧
      ((1 : Int) ∈ ([0, 1, 2] : List Int)) ∧ ((2 : Int) ∈ ([0, 1, 2] : List Int)) :=
  ⟨c2_status_codes.1 (fun _ _ _ _ _ => .error ()) (fun _ _ _ _ => .error ())
      (fun _ => true) (fun _ => true) 0 0 none none none false false 0
      (some { len := 0, items := some [] }) (some { len := 0, items := some [] }) rfl,
    c2_status_codes.2.1 (fun _ _ _ _ _ _ => .error ()) (fun _ => true) 17 19 none 0 0 0
      2 0 false 1 none rfl,
    c2_status_codes.2.2 (fun _ _ => .ok []) (fun _ => true) 0 0 0 0 none true 2 none rfl⟩

/-- C3: for every valid wire path set `P` (`ValidWire`: per the data-model
invariants, the path array holds exactly `len` paths and every
positive-length path has a point buffer of exactly that many points),
exporting the import of `P` under a succeeding allocator reproduces the
points of `P` exactly — the same paths, in order, with the same `(x, y)`
64-bit integer coordinates (`wireContent` reads off exactly those points,
with the length fields authoritative). -/
theorem c3_export_import_roundtrip (P : Option cpaths64) (h : ValidWire P) :
    ∃ ps out, toPaths64 P = .ok ps ∧
      fromPaths64 (fun _ => true) ps false = (true, some out) ∧
      wireContent (some out) = wireContent P := by
  have himp := toPaths64_readable P (validWire_readable P h)
  refine ⟨wireContent P, _, himp, fromPaths64_perfect (wireContent P), ?_⟩
  exact wireContent_export (wireContent P)

/-- Witness for C3: a valid two-path set (one path with one point, one empty
path) round-trips exactly. -/
theorem c3_export_import_roundtrip_witness :
    ∃ ps out,
      toPaths64 (some { len := 2, items := some [{ len := 1, pts := some [{ x := 3, y := 4 }] }, { len := 0, pts := none }] }) = .ok ps ∧
      fromPaths64 (fun _ => true) ps false = (true, some out) ∧
      wireContent (some out) =
        wireContent (some { len := 2, items := some [{ len := 1, pts := some [{ x := 3, y := 4 }] }, { len := 0, pts := none }] }) :=
  c3_export_import_roundtrip _ (by
    intro s hs hpos
    cases hs
    refine ⟨_, rfl, rfl, ?_⟩
    intro it hit hplen
    cases hit with
    | head => exact ⟨_, rfl, rfl⟩
    | tail _ h2 =>
      cases h2 with
      | head => exact absurd hplen (by decide)
      | tail _ h3 => cases h3)

/-- C4 counterexample: on the handle `{len = 0, items = non-null}` — exactly
what a successful export of an empty set can produce — `clipper2c_free_paths`
is not a no-op: it frees the path array and resets `items` to null, so the
handle is changed even though `len = 0`. -/
theorem c4_release_empty_counterexample :
    clipper2c_free_paths (some { len := 0, items := some [] }) =
      .ok (some { len := 0, items := none }, [FreeAction.freeItems []]) ∧
    ({ len := 0, items := none } : cpaths64) ≠ { len := 0, items := some [] } :=
  ⟨rfl, by decide⟩

/-- C4 amended: (1) on a handle with `len = 0` and a null path array,
`clipper2c_free_paths` is a no-op; (2) on a handle with `len = 0` and a
non-null path array it frees the path array alone and resets the handle to
the empty state; (3) on every handle produced by a successful export it
deep-releases the point buffer of every non-empty path (in order), then the
path array (when non-null), then resets the handle to the empty state
`len = 0, items = null`. -/
theorem c4_release_path_set (s0 : cpaths64) :
    (s0.len = 0 → s0.items = none →
      clipper2c_free_paths (some s0) = .ok (some s0, [])) ∧
    (∀ its, s0.len = 0 → s0.items = some its →
      clipper2c_free_paths (some s0) =
        .ok (some { len := 0, items := none }, [FreeAction.freeItems its])) ∧
    (∀ (alloc : Nat → Bool) (src : Paths64) (out : cpaths64),
      fromPaths64 alloc src false = (true, some out) →
      clipper2c_free_paths (some out) =
        .ok (some { len := 0, items := none },
          ((src.filter (fun p => p.length != 0)).map FreeAction.freePts) ++
            (match out.items with
             | some its => [FreeAction.freeItems its]
             | none => []))) := by
  refine ⟨?_, ?_, ?_⟩
  · intro hlen hitems
    simp [clipper2c_free_paths, hitems]
  · intro its hlen hitems
    simp [clipper2c_free_paths, hitems, hlen, freePtsLoop]
  · intro alloc src out h
    obtain ⟨hout, hempty⟩ := fromPaths64_ok_shape alloc src out h
    by_cases ha : alloc 0
    · rw [hout]
      simp only [ha, ite_true, if_pos]
      have hloop := freePtsLoop_take (src.map expItem) (src.map expItem).length
        (le_refl (src.map expItem).length)
      rw [List.take_length] at hloop
      rw [List.length_map] at hloop
      rw [filterMap_pts_expItem] at hloop
      simp [clipper2c_free_paths, hloop]
    · have hsrc : src = [] := hempty (by simpa using ha)
      subst hsrc
      rw [hout]
      simp [clipper2c_free_paths, ha]

/-- Witness for C4: releasing the export of `[[{1, 2}], []]` frees the one
point buffer, then the path array, and resets the handle. -/
theorem c4_release_path_set_witness :
    clipper2c_free_paths (some { len := 2, items := some [{ len := 1, pts := some [{ x := 1, y := 2 }] }, { len := 0, pts := none }] }) =
      .ok (some { len := 0, items := none },
        [FreeAction.freePts [{ x := 1, y := 2 }],
         FreeAction.freeItems [{ len := 1, pts := some [{ x := 1, y := 2 }] }, { len := 0, pts := none }]]) :=
  (c4_release_path_set { len := 2, items := some [{ len := 1, pts := some [{ x := 1, y := 2 }] }, { len := 0, pts := none }] }).2.2
    (fun _ => true) [[{ x := 1, y := 2 }], []]
    { len := 2, items := some [{ len := 1, pts := some [{ x := 1, y := 2 }] }, { len := 0, pts := none }] } rfl

/-- C5: the public join-type enum `c_jointype` consists of exactly the three
selectors `Square = 0`, `Round = 1`, `Miter = 2`, and for any value the
missing `C_JOIN_BEVEL` constant could take in a compiling header (distinct
from the three declared values, since duplicate switch case labels do not
compile), `toJT` never maps a public selector to the engine's `Bevel`
join. -/
theorem c5_jointype_no_bevel :
    (c_jointype.square.val = 0 ∧ c_jointype.round.val = 1 ∧
      c_jointype.miter.val = 2 ∧
      ∀ j : c_jointype, j = .square ∨ j = .round ∨ j = .miter) ∧
    (∀ bevelVal : Int, bevelVal ≠ C_JOIN_SQUARE → bevelVal ≠ C_JOIN_ROUND →
      bevelVal ≠ C_JOIN_MITER →
      ∀ j : c_jointype, toJT bevelVal j.val ≠ JoinType.Bevel) := by
  refine ⟨⟨rfl, rfl, rfl, fun j => by cases j <;> simp⟩, ?_⟩
  intro bv h0 h1 h2 j
  simp only [C_JOIN_SQUARE, C_JOIN_ROUND, C_JOIN_MITER] at h0 h1 h2
  cases j <;>
    simp [toJT, c_jointype.val, C_JOIN_SQUARE, C_JOIN_ROUND, C_JOIN_MITER] <;>
    omega

/-- Witness for C5: with the bevel constant valued 3, the public `round`
selector does not produce the `Bevel` join. -/
theorem c5_jointype_no_bevel_witness :
    ((3 : Int) ≠ C_JOIN_SQUARE ∧ (3 : Int) ≠ C_JOIN_ROUND ∧
      (3 : Int) ≠ C_JOIN_MITER) ∧
    toJT 3 c_jointype.round.val ≠ JoinType.Bevel :=
  ⟨⟨by decide, by decide, by decide⟩,
    c5_jointype_no_bevel.2 3 (by decide) (by decide) (by decide) c_jointype.round⟩

/-- C6: for every run of `clipper2c_boolean64` whose core evaluation
computed the solutions (`sol`, `solOpen`) internally, a null closed-output
pointer yields no status 2 and no closed output, a null open-output pointer
yields no status 3 and no open output, and on status 0 every output
requested through a non-null pointer holds the complete successful export of
its solution. -/
theorem c6_null_output_slots (e : ExecuteFn) (b : BooleanOpFn)
    (aC aO : Nat → Bool) (ct fr : Int) (s so c : Option cpaths64)
    (sol solOpen : Paths64) (tr : List EngineEvent) (nC nO : Bool)
    (hcore : boolean64core e b ct fr s so c = .ok (.ok (sol, solOpen, tr)))
    (st : Int) (o1 o2 : Option cpaths64)
    (hrun : clipper2c_boolean64 e b aC aO ct fr s so c nC nO = .ok (st, o1, o2)) :
    (nC = true → st ≠ 2 ∧ o1 = none) ∧
    (nO = true → st ≠ 3 ∧ o2 = none) ∧
    (st = 0 →
      (nC = false → ∃ v, o1 = some v ∧ fromPaths64 aC sol false = (true, some v)) ∧
      (nO = false → ∃ v, o2 = some v ∧ fromPaths64 aO solOpen false = (true, some v))) := by
  have hval : clipper2c_boolean64 e b aC aO ct fr s so c nC nO =
      .ok (exportBooleanOutputs aC aO sol solOpen nC nO) := by
    simp [clipper2c_boolean64, hcore]
  rw [hval] at hrun
  injection hrun with h2
  cases nC with
  | true =>
    cases nO with
    | true =>
      have h3 : ((0 : Int), (none : Option cpaths64), (none : Option cpaths64)) =
          (st, o1, o2) := by rw [← h2]; rfl
      injection h3 with ha hbc
      injection hbc with hb hc
      subst ha; subst hb; subst hc
      exact ⟨fun _ => ⟨by decide, rfl⟩, fun _ => ⟨by decide, rfl⟩,
        fun _ => ⟨fun hx => Bool.noConfusion hx, fun hx => Bool.noConfusion hx⟩⟩
    | false =>
      rcases hO : fromPaths64 aO solOpen false with ⟨bO, vO⟩
      cases bO with
      | true =>
        have h3 : ((0 : Int), (none : Option cpaths64), vO) = (st, o1, o2) := by
          rw [← h2]
          simp [exportBooleanOutputs, hO]
        injection h3 with ha hbc
        injection hbc with hb hc
        subst ha; subst hb; subst hc
        refine ⟨fun _ => ⟨by decide, rfl⟩, fun hx => Bool.noConfusion hx,
          fun _ => ⟨fun hx => Bool.noConfusion hx, fun _ => ?_⟩⟩
        obtain ⟨w, hw⟩ := fromPaths64_true_some aO solOpen vO hO
        subst hw
        exact ⟨w, rfl, rfl⟩
      | false =>
        have h3 : ((3 : Int), (none : Option cpaths64), (none : Option cpaths64)) =
            (st, o1, o2) := by
          rw [← h2]
          simp [exportBooleanOutputs, hO]
        injection h3 with ha hbc
        injection hbc with hb hc
        subst ha; subst hb; subst hc
        exact ⟨fun _ => ⟨by decide, rfl⟩, fun hx => Bool.noConfusion hx,
          fun h0 => absurd h0 (by decide)⟩
  | false =>
    rcases hC : fromPaths64 aC sol false with ⟨bC, vC⟩
    cases bC with
    | false =>
      have h3 : ((2 : Int), (none : Option cpaths64), (none : Option cpaths64)) =
          (st, o1, o2) := by
        rw [← h2]
        simp [exportBooleanOutputs, hC]
      injection h3 with ha hbc
      injection hbc with hb hc
      subst ha; subst hb; subst hc
      exact ⟨fun hx => Bool.noConfusion hx, fun _ => ⟨by decide, rfl⟩,
        fun h0 => absurd h0 (by decide)⟩
    | true =>
      cases nO with
      | true =>
        have h3 : ((0 : Int), vC, (none : Option cpaths64)) = (st, o1, o2) := by
          rw [← h2]
          simp [exportBooleanOutputs, hC]
        injection h3 with ha hbc
        injection hbc with hb hc
        subst ha; subst hb; subst hc
        refine ⟨fun hx => Bool.noConfusion hx, fun _ => ⟨by decide, rfl⟩,
          fun _ => ⟨fun _ => ?_, fun hx => Bool.noConfusion hx⟩⟩
        obtain ⟨w, hw⟩ := fromPaths64_true_some aC sol vC hC
        subst hw
        exact ⟨w, rfl, rfl⟩
      | false =>
        rcases hO : fromPaths64 aO solOpen false with ⟨bO, vO⟩
        cases bO with
        | true =>
          have h3 : ((0 : Int), vC, vO) = (st, o1, o2) := by
            rw [← h2]
            simp [exportBooleanOutputs, hC, hO]
          injection h3 with ha hbc
          injection hbc with hb hc
          subst ha; subst hb; subst hc
          refine ⟨fun hx => Bool.noConfusion hx, fun hx => Bool.noConfusion hx,
            fun _ => ⟨fun _ => ?_, fun _ => ?_⟩⟩
          · obtain ⟨w, hw⟩ := fromPaths64_true_some aC sol vC hC
            subst hw
            exact ⟨w, rfl, rfl⟩
          · obtain ⟨w, hw⟩ := fromPaths64_true_some aO solOpen vO hO
            subst hw
            exact ⟨w, rfl, rfl⟩
        | false =>
          have h3 : ((3 : Int), vC, (none : Option cpaths64)) = (st, o1, o2) := by
            rw [← h2]
            simp [exportBooleanOutputs, hC, hO]
          injection h3 with ha hbc
          injection hbc with hb hc
          subst ha; subst hb; subst hc
          exact ⟨fun hx => Bool.noConfusion hx, fun hx => Bool.noConfusion hx,
            fun h0 => absurd h0 (by decide)⟩

/-- Witness for C6: empty inputs, null closed-output pointer, non-null
open-output pointer; the run returns status 0, exports only the open slot,
and the conclusions of `c6_null_output_slots` hold at these values. -/
theorem c6_null_output_slots_witness :
    ((true : Bool) = true → (0 : Int) ≠ 2 ∧ (none : Option cpaths64) = none) ∧
    ((false : Bool) = true → (0 : Int) ≠ 3 ∧
      (some { len := 0, items := some [] } : Option cpaths64) = none) ∧
    ((0 : Int) = 0 →
      ((true : Bool) = false → ∃ v, (none : Option cpaths64) = some v ∧
        fromPaths64 (fun _ => true) [] false = (true, some v)) ∧
      ((false : Bool) = false → ∃ v,
        (some { len := 0, items := some [] } : Option cpaths64) = some v ∧
        fromPaths64 (fun _ => true) [] false = (true, some v))) :=
  c6_null_output_slots (fun _ _ q qo _ => .ok (q, qo)) (fun _ _ q _ => .ok q)
    (fun _ => true) (fun _ => true) 0 0 none none none [] [] [] true false rfl
    0 none (some { len := 0, items := some [] }) rfl

/-- C7: `clipper2c_rectclip64` performs no validation of the rectangle: for
every coordinate quadruple — including `left > right` or `top > bottom` —
the engine is invoked on exactly the rectangle `{left, top, right, bottom}`
as given, and (under a succeeding allocator and non-null output pointer) the
call returns status 0 with the export of the engine's clip of the imported
input paths against exactly that rectangle. -/
theorem c7_rectclip_passes_rect_as_is (r : RectClipFn) (l t rt bt : Int)
    (inp : Option cpaths64) (ps out : Paths64)
    (him : toPaths64 inp = .ok ps)
    (heng : r { left := l, top := t, right := rt, bottom := bt } ps = .ok out) :
    clipper2c_rectclip64 r (fun _ => true) l t rt bt inp false =
      .ok (0, some { len := (out.length : Int), items := some (out.map expItem) }) := by
  simp [clipper2c_rectclip64, him, heng, fromPaths64_perfect]

/-- Witness for C7: an inverted rectangle (left 5 greater than right 1, top
0 less than bottom -2) is passed through unchanged and the call succeeds. -/
theorem c7_rectclip_passes_rect_as_is_witness :
    clipper2c_rectclip64 (fun _ q => .ok q) (fun _ => true) 5 0 1 (-2)
        (some { len := 1, items := some [{ len := 1, pts := some [{ x := 7, y := 8 }] }] })
        false =
      .ok (0, some { len := 1, items := some [{ len := 1, pts := some [{ x := 7, y := 8 }] }] }) :=
  c7_rectclip_passes_rect_as_is (fun _ q => .ok q) 5 0 1 (-2)
    (some { len := 1, items := some [{ len := 1, pts := some [{ x := 7, y := 8 }] }] })
    [[{ x := 7, y := 8 }]] [[{ x := 7, y := 8 }]] rfl rfl

/-- C8 counterexample: `toPaths64` is not total over all wire path sets —
on the set `{len = 1, items = null}` the source dereferences the null path
array (`cp->items[i]` at line 25 is reached because only `cp` and `cp->len`
are checked at line 22), so import faults instead of returning a value. -/
theorem c8_import_not_total :
    toPaths64 (some { len := 1, items := none }) = .error MemErr.nullDeref ∧
    ¬ ∀ cp : Option cpaths64, ∃ ps, toPaths64 cp = .ok ps := by
  refine ⟨rfl, fun hall => ?_⟩
  obtain ⟨ps, hps⟩ := hall (some { len := 1, items := none })
  rw [show toPaths64 (some { len := 1, items := none }) = .error MemErr.nullDeref
    from rfl] at hps
  exact Except.noConfusion hps

/-- C8 amended: `toPaths64` is total over every readable wire path set —
one whose path array is non-null with at least `len` entries whenever `len`
is positive, and whose positive-length paths have a null point buffer or a
buffer of at least `len` points.  On that domain import returns the sets
points (a path with positive length and a null point buffer is imported as
an empty internal path, per `pathContent`), and `toPath64` maps every
positive-length path with a null point buffer to the empty path. -/
theorem c8_import_total_on_readable (cp : Option cpaths64) (h : ReadableWire cp) :
    (∃ ps, toPaths64 cp = .ok ps ∧ ps = wireContent cp) ∧
    (∀ it : cpath64, 0 < it.len → it.pts = none → toPath64 it = .ok []) :=
  ⟨⟨wireContent cp, toPaths64_readable cp h, rfl⟩,
    fun it h1 h2 => by simp [toPath64, h2]⟩

/-- Witness for C8: a set with one path of declared length 2 and a null
point buffer is readable and imports as one empty internal path. -/
theorem c8_import_total_on_readable_witness :
    (∃ ps, toPaths64 (some { len := 1, items := some [{ len := 2, pts := none }] }) = .ok ps ∧
      ps = wireContent (some { len := 1, items := some [{ len := 2, pts := none }] })) ∧
    (∀ it : cpath64, 0 < it.len → it.pts = none → toPath64 it = .ok []) :=
  c8_import_total_on_readable
    (some { len := 1, items := some [{ len := 2, pts := none }] })
    (by
      intro s hs hpos
      cases hs
      refine ⟨_, rfl, by decide, ?_⟩
      intro it hit hplen bf hb
      cases hit with
      | head => exact absurd hb (by simp)
      | tail _ h3 => cases h3)

/-- C9: when the geometric computation succeeds, `clipper2c_offset64` and
`clipper2c_rectclip64` called with a null output-path-set pointer return
status 2 — the export-failure code, since `fromPaths64` rejects a null
destination before writing anything — and write no output. -/
theorem c9_null_output_pointer_status2 (i : InflateFn) (r : RectClipFn)
    (a1 a2 : Nat → Bool) (bv pv : Int) (p q : Option cpaths64) (d ml atol : Float)
    (jt et : Int) (l t rt bt : Int) (inp1 inp2 out1 out2 : Paths64)
    (h1 : toPaths64 p = .ok inp1)
    (h2 : i inp1 d (toJT bv jt) (toET pv et) ml atol = .ok out1)
    (h3 : toPaths64 q = .ok inp2)
    (h4 : r { left := l, top := t, right := rt, bottom := bt } inp2 = .ok out2) :
    clipper2c_offset64 i a1 bv pv p d jt et ml atol true = .ok (2, none) ∧
    clipper2c_rectclip64 r a2 l t rt bt q true = .ok (2, none) := by
  have hf1 : fromPaths64 a1 out1 true = (false, none) := rfl
  have hf2 : fromPaths64 a2 out2 true = (false, none) := rfl
  constructor
  · simp [clipper2c_offset64, h1, h2, hf1]
  · simp [clipper2c_rectclip64, h3, h4, hf2]

/-- Witness for C9: both operations on empty inputs with engines that
succeed, called with a null output pointer, return status 2. -/
theorem c9_null_output_pointer_status2_witness :
    clipper2c_offset64 (fun _ _ _ _ _ _ => .ok []) (fun _ => true) 17 19 none 0 0 0
        2 0 true = .ok (2, none) ∧
    clipper2c_rectclip64 (fun _ _ => .ok []) (fun _ => true) 0 0 0 0 none true =
      .ok (2, none) :=
  c9_null_output_pointer_status2 (fun _ _ _ _ _ _ => .ok []) (fun _ _ => .ok [])
    (fun _ => true) (fun _ => true) 17 19 none none 0 2 0 0 0 0 0 0 0
    [] [] [] [] rfl rfl rfl rfl

/-- C10 counterexample: on the handle `{len = 1, items = null}` one call to
`clipper2c_free_paths` returns immediately, leaving the handle with
`len = 1` — not in the empty state `(len = 0, items = null)` the claim
asserts after one call. -/
theorem c10_release_not_reset_counterexample :
    clipper2c_free_paths (some { len := 1, items := none }) =
      .ok (some { len := 1, items := none }, []) ∧
    ({ len := 1, items := none } : cpaths64) ≠ { len := 0, items := none } :=
  ⟨rfl, by decide⟩

/-- C10 amended: for every handle that is already empty
(`len = 0, items = null`) or whose path array is non-null with at least
`len` entries (every handle a successful export produces is of one of these
forms), one call through the handle leaves it in the empty state, and every
subsequent call returns immediately, frees nothing, and leaves the handle
in the empty state. -/
theorem c10_release_idempotent (s0 : cpaths64)
    (h : (s0.len = 0 ∧ s0.items = none) ∨
      ∃ its, s0.items = some its ∧ s0.len.toNat ≤ its.length) :
    ∃ acts, clipper2c_free_paths (some s0) =
        .ok (some { len := 0, items := none }, acts) ∧
      clipper2c_free_paths (some { len := 0, items := none }) =
        .ok (some { len := 0, items := none }, []) := by
  rcases h with ⟨hlen, hitems⟩ | ⟨its, hitems, hle⟩
  · refine ⟨[], ?_, rfl⟩
    have hs : s0 = { len := 0, items := none } := by
      cases s0
      simp_all
    rw [hs]
    exact rfl
  · refine ⟨((its.take s0.len.toNat).filterMap cpath64.pts).map FreeAction.freePts ++
      [FreeAction.freeItems its], ?_, rfl⟩
    have hloop := freePtsLoop_take its s0.len.toNat hle
    simp [clipper2c_free_paths, hitems, hloop]

/-- Witness for C10: a one-path handle with a point buffer is reset to the
empty state by the first call; the second call is a no-op. -/
theorem c10_release_idempotent_witness :
    ∃ acts,
      clipper2c_free_paths
          (some { len := 1, items := some [{ len := 1, pts := some [{ x := 2, y := 3 }] }] }) =
        .ok (some { len := 0, items := none }, acts) ∧
      clipper2c_free_paths (some { len := 0, items := none }) =
        .ok (some { len := 0, items := none }, []) :=
  c10_release_idempotent { len := 1, items := some [{ len := 1, pts := some [{ x := 2, y := 3 }] }] }
    (Or.inr ⟨[{ len := 1, pts := some [{ x := 2, y := 3 }] }], rfl, by decide⟩)
